import Mathlib

/-
Shallow embedding of src/litellm-helm/scripts/cost-monitor.py.

Conventions of the embedding:
- Python float arithmetic is modelled with exact rationals.
- Python dicts are modelled as association lists preserving insertion
  order.  A plain dict read d[k] is dlookup (KeyError becomes none);
  dict.get(k, default) is dgetD and never inserts; the augmented
  assignment d[k] += v of a defaultdict(float) is dincr (reads 0 for an
  absent key, then stores).
- datetime.utcnow() is passed in explicitly as an Instant carrying both a
  linear time coordinate in seconds (for timedelta arithmetic) and its
  three strftime period keys.
- The regex and keyword scans of ContentGuardrails are abstracted as
  boolean oracle parameters (piiHit, secretHit, toxicHit): the claims
  under study never depend on which pattern fired, only on whether the
  corresponding branch appends its violation.
-/

/-- One strftime-stamped UTC instant: t is the linear coordinate in
seconds, and day, week, month are the %Y-%m-%d, %Y-W%U and %Y-%m keys the
datetime would format to. -/
structure Instant where
  t : Int
  day : String
  week : String
  month : String
deriving DecidableEq

/-- CostEntry dataclass of cost-monitor.py. -/
structure CostEntry where
  timestamp : Instant
  model : String
  user_id : String
  input_tokens : Int
  output_tokens : Int
  input_cost : ℚ
  output_cost : ℚ
  total_cost : ℚ
  request_id : String
deriving DecidableEq

/-- Plain dict read d[k]: none models a KeyError. -/
def dlookup {α : Type} (d : List (String × α)) (k : String) : Option α :=
  match d with
  | [] => none
  | (k1, v) :: rest => if k1 = k then some v else dlookup rest k

/-- dict.get(k, dflt): a pure read, never inserts a key. -/
def dgetD {α : Type} (d : List (String × α)) (k : String) (dflt : α) : α :=
  (dlookup d k).getD dflt

/-- dict store d[k] = v, keeping insertion order; appends when k is new. -/
def dset {α : Type} (d : List (String × α)) (k : String) (v : α) :
    List (String × α) :=
  match d with
  | [] => [(k, v)]
  | (k1, v1) :: rest => if k1 = k then (k1, v) :: rest else (k1, v1) :: dset rest k v

/-- defaultdict(float) augmented assignment d[k] += v: an absent key reads
as 0 and is materialized by the store. -/
def dincr (d : List (String × ℚ)) (k : String) (v : ℚ) : List (String × ℚ) :=
  dset d k (dgetD d k 0 + v)

/-- CostTracker state after __init__ (cost-monitor.py lines 47-75).  The
field model_costs holds the PRICING table: __init__ first binds it to a
defaultdict of per-model daily aggregates and then immediately rebinds the
same attribute to the static pricing dict whose inner keys are the strings
input and output, so the per-model aggregation map and the pricing map are
one structure. -/
structure CostTracker where
  costs : List CostEntry
  daily_costs : List (String × ℚ)
  weekly_costs : List (String × ℚ)
  monthly_costs : List (String × ℚ)
  user_costs : List (String × List (String × ℚ))
  model_costs : List (String × List (String × ℚ))
  daily_budget : ℚ
  weekly_budget : ℚ
  monthly_budget : ℚ
  warning_threshold : ℚ
  critical_threshold : ℚ
  emergency_threshold : ℚ

/-- The tracker produced by CostTracker.__init__ under the default
environment (no overriding environment variables). -/
def initState : CostTracker :=
  { costs := []
    daily_costs := []
    weekly_costs := []
    monthly_costs := []
    user_costs := []
    model_costs :=
      [("vertex-gemini-pro", [("input", 0.000125), ("output", 0.000375)]),
       ("vertex-gemini-flash", [("input", 0.000075), ("output", 0.0003)])]
    daily_budget := 100
    weekly_budget := 500
    monthly_budget := 2000
    warning_threshold := 0.75
    critical_threshold := 0.9
    emergency_threshold := 0.95 }

/-- Price resolution step of CostTracker.calculate_cost (lines 81-87): a
model absent from model_costs falls back to 0.001 and 0.002 per 1k tokens
with the warning flag (the logger.warning call) set; a present model reads
the inner keys input and output by plain indexing (none = KeyError). -/
def resolved_prices (s : CostTracker) (model : String) : Option (ℚ × ℚ × Bool) :=
  match dlookup s.model_costs model with
  | none => some (0.001, 0.002, true)
  | some inner =>
    match dlookup inner "input", dlookup inner "output" with
    | some ip, some op => some (ip, op, false)
    | _, _ => none

/-- CostTracker.calculate_cost (lines 79-93): resolves prices, then
input_cost = (input_tokens / 1000) * price, likewise for output, and
total_cost = input_cost + output_cost. -/
def calculate_cost (s : CostTracker) (model : String)
    (input_tokens output_tokens : Int) : Option (ℚ × ℚ × ℚ × Bool) :=
  match resolved_prices s model with
  | none => none
  | some (ip, op, warned) =>
    let input_cost := ((input_tokens : ℚ) / 1000) * ip
    let output_cost := ((output_tokens : ℚ) / 1000) * op
    some (input_cost, output_cost, input_cost + output_cost, warned)

/-- CostTracker.add_cost_entry (lines 95-127).  Returns the tracker state
after the call together with the normal return value or the exception:
the statements inside the lock run in order, so when the per-model line
self.model_costs[model][today] += total_cost raises KeyError, the record
append and the daily, weekly, monthly and per-user updates have already
happened and persist, while the method exits exceptionally. -/
def add_cost_entry (s : CostTracker) (model user_id : String)
    (input_tokens output_tokens : Int) (request_id : String) (now : Instant) :
    CostTracker × Except String CostEntry :=
  match calculate_cost s model input_tokens output_tokens with
  | none => (s, Except.error "KeyError")
  | some (input_cost, output_cost, total_cost, _warned) =>
    let entry : CostEntry :=
      { timestamp := now, model := model, user_id := user_id
        input_tokens := input_tokens, output_tokens := output_tokens
        input_cost := input_cost, output_cost := output_cost
        total_cost := total_cost, request_id := request_id }
    let s1 : CostTracker :=
      { s with
        costs := s.costs ++ [entry]
        daily_costs := dincr s.daily_costs now.day total_cost
        weekly_costs := dincr s.weekly_costs now.week total_cost
        monthly_costs := dincr s.monthly_costs now.month total_cost
        user_costs :=
          dset s.user_costs user_id
            (dincr (dgetD s.user_costs user_id []) now.day total_cost) }
    match dlookup s.model_costs model with
    | none => (s1, Except.error "KeyError")
    | some inner =>
      match dlookup inner now.day with
      | none => (s1, Except.error "KeyError")
      | some prev =>
        ({ s1 with
           model_costs := dset s.model_costs model (dset inner now.day (prev + total_cost)) },
         Except.ok entry)

/-- The nine booleans returned by CostTracker.check_budget_limits. -/
structure BudgetStatus where
  daily_warning : Bool
  daily_critical : Bool
  daily_emergency : Bool
  weekly_warning : Bool
  weekly_critical : Bool
  weekly_emergency : Bool
  monthly_warning : Bool
  monthly_critical : Bool
  monthly_emergency : Bool
deriving DecidableEq

/-- CostTracker.check_budget_limits (lines 129-149): reads the current
spends with dict.get(key, 0), which never materializes an absent period
key, and compares each against ceiling times threshold fraction.  The
tracker state is returned alongside to make the absence of mutation part
of the embedding. -/
def check_budget_limits (s : CostTracker) (now : Instant) :
    BudgetStatus × CostTracker :=
  let daily_spent := dgetD s.daily_costs now.day 0
  let weekly_spent := dgetD s.weekly_costs now.week 0
  let monthly_spent := dgetD s.monthly_costs now.month 0
  ({ daily_warning := decide (daily_spent ≥ s.daily_budget * s.warning_threshold)
     daily_critical := decide (daily_spent ≥ s.daily_budget * s.critical_threshold)
     daily_emergency := decide (daily_spent ≥ s.daily_budget * s.emergency_threshold)
     weekly_warning := decide (weekly_spent ≥ s.weekly_budget * s.warning_threshold)
     weekly_critical := decide (weekly_spent ≥ s.weekly_budget * s.critical_threshold)
     weekly_emergency := decide (weekly_spent ≥ s.weekly_budget * s.emergency_threshold)
     monthly_warning := decide (monthly_spent ≥ s.monthly_budget * s.warning_threshold)
     monthly_critical := decide (monthly_spent ≥ s.monthly_budget * s.critical_threshold)
     monthly_emergency := decide (monthly_spent ≥ s.monthly_budget * s.emergency_threshold) },
   s)

/-- CostTracker.cleanup_old_entries (lines 175-185): cutoff_date is now
minus retention_days of 86400 seconds; the list comprehension keeps the
entries whose timestamp is strictly greater than the cutoff.  The removed
count is computed only for the log line and the method returns None, so
the embedding returns just the new state. -/
def cleanup_old_entries (s : CostTracker) (retention_days : Int) (now : Instant) :
    CostTracker :=
  let cutoff := now.t - retention_days * 86400
  { s with costs := s.costs.filter (fun e => decide (cutoff < e.timestamp.t)) }

/-- Tags identifying the violation strings appended by the guardrail
checks; the embedding tracks which branch fired rather than the formatted
message text. -/
inductive Violation where
  | sizeLimit : Violation
  | tokenLimit : Violation
  | pii : Violation
  | secret : Violation
  | toxic : Violation
  | budgetLimit : Violation
deriving DecidableEq

/-- ContentGuardrails configuration fields (lines 190-201). -/
structure ContentGuardrails where
  block_pii : Bool
  block_toxic : Bool
  block_hate : Bool
  block_violence : Bool
  block_sexual : Bool
  max_input_tokens : Int
  max_output_tokens : Int
  max_request_size : Int
  scan_for_secrets : Bool

/-- ContentGuardrails.__init__ under the default environment. -/
def initGuardrails : ContentGuardrails :=
  { block_pii := true, block_toxic := true, block_hate := true
    block_violence := true, block_sexual := true
    max_input_tokens := 8192, max_output_tokens := 8192
    max_request_size := 1048576, scan_for_secrets := true }

/-- Byte length of the UTF-8 encoding, len(content.encode(..)). -/
def utf8Len (content : List Char) : Nat :=
  (content.map Char.utf8Size).sum

/-- Helper for pySplit: walks the characters carrying the reversed current
word, emitting a word at each whitespace boundary and at the end. -/
def pySplitAux : List Char → List Char → List (List Char)
  | [], acc => if acc.isEmpty then [] else [acc.reverse]
  | c :: rest, acc =>
    if c.isWhitespace then
      (if acc.isEmpty then pySplitAux rest [] else acc.reverse :: pySplitAux rest [])
    else pySplitAux rest (c :: acc)

/-- Python str.split() with no arguments: splits on runs of whitespace and
never yields empty words. -/
def pySplit (content : List Char) : List (List Char) :=
  pySplitAux content []

/-- ContentGuardrails.validate_input (lines 222-258).  The three regex or
keyword scans are abstracted as the boolean oracles piiHit, secretHit and
toxicHit (each scan loop only ever appends its single fixed violation and
breaks, so all that matters is whether any pattern matched).  The size and
token-estimate checks are concrete: estimated tokens are
len(content.split()) * 1.3 compared against max_input_tokens. -/
def validate_input (g : ContentGuardrails) (content : List Char)
    (piiHit secretHit toxicHit : Bool) : Bool × List Violation :=
  let sizeV : List Violation :=
    if (utf8Len content : Int) > g.max_request_size then [Violation.sizeLimit] else []
  let estimated_tokens : ℚ := ((pySplit content).length : ℚ) * 1.3
  let tokenV : List Violation :=
    if estimated_tokens > (g.max_input_tokens : ℚ) then [Violation.tokenLimit] else []
  let piiV : List Violation :=
    if g.block_pii && piiHit then [Violation.pii] else []
  let secretV : List Violation :=
    if g.scan_for_secrets && secretHit then [Violation.secret] else []
  let toxicV : List Violation :=
    if (g.block_toxic || g.block_hate || g.block_violence || g.block_sexual) && toxicHit
    then [Violation.toxic] else []
  let violations := sizeV ++ tokenV ++ piiV ++ secretV ++ toxicV
  (violations.length == 0, violations)

/-- GuardrailsManager state (lines 281-292). -/
structure GuardrailsManager where
  cost_tracker : CostTracker
  content_guardrails : ContentGuardrails
  enabled : Bool

/-- GuardrailsManager.pre_request_check (lines 304-321): when disabled it
allows with no violations; otherwise it reads the budget status, appends
the blocking budget violation when daily or monthly emergency is set,
merges the input-validation violations when the content is invalid, and
allows iff the merged list is empty.  The tracker state after the call is
returned alongside the pair. -/
def pre_request_check (m : GuardrailsManager) (content : List Char)
    (model user_id : String) (now : Instant)
    (piiHit secretHit toxicHit : Bool) :
    (Bool × List Violation) × CostTracker :=
  if m.enabled = false then ((true, []), m.cost_tracker)
  else
    let bst := check_budget_limits m.cost_tracker now
    let budgetV : List Violation :=
      if bst.1.daily_emergency || bst.1.monthly_emergency
      then [Violation.budgetLimit] else []
    let contentRes := validate_input m.content_guardrails content piiHit secretHit toxicHit
    let violations := budgetV ++ (if contentRes.1 then [] else contentRes.2)
    ((violations.length == 0, violations), bst.2)

/-- A concrete instant used by the concrete evaluations: 30 days after the
epoch of the model, formatted to October 12, 2026 period keys. -/
def inst1 : Instant := ⟨2592000, "2026-10-12", "2026-W41", "2026-10"⟩

/-- C8: for every state, model and non-negative token pair, whenever price
resolution yields prices (ip, op), calculate_cost returns exactly
inputCost = inputTokens/1000 * ip, outputCost = outputTokens/1000 * op,
and a totalCost that equals inputCost + outputCost. -/
theorem C8_calculate_cost_formula (s : CostTracker) (model : String)
    (input_tokens output_tokens : Int)
    (hin : 0 ≤ input_tokens) (hout : 0 ≤ output_tokens)
    (ip op : ℚ) (w : Bool)
    (hp : resolved_prices s model = some (ip, op, w)) :
    calculate_cost s model input_tokens output_tokens
      = some (((input_tokens : ℚ) / 1000) * ip, ((output_tokens : ℚ) / 1000) * op,
              ((input_tokens : ℚ) / 1000) * ip + ((output_tokens : ℚ) / 1000) * op, w) := by
  simp [calculate_cost, hp]

/-- Witness for C8 at the configured model vertex-gemini-pro with 1000
input and 2000 output tokens. -/
theorem C8_calculate_cost_formula_witness :
    (0 ≤ (1000 : Int) ∧ 0 ≤ (2000 : Int)
      ∧ resolved_prices initState "vertex-gemini-pro" = some (0.000125, 0.000375, false))
    ∧ calculate_cost initState "vertex-gemini-pro" 1000 2000
      = some ((((1000 : Int) : ℚ) / 1000) * 0.000125, (((2000 : Int) : ℚ) / 1000) * 0.000375,
              (((1000 : Int) : ℚ) / 1000) * 0.000125 + (((2000 : Int) : ℚ) / 1000) * 0.000375,
              false) :=
  ⟨⟨by decide, by decide, by simp [resolved_prices, dlookup, initState]⟩,
   C8_calculate_cost_formula initState "vertex-gemini-pro" 1000 2000 (by decide) (by decide)
     0.000125 0.000375 false (by simp [resolved_prices, dlookup, initState])⟩

/-- C3 counterexample: a negative input-token count is not rejected; the
cost computation returns normally with a negative cost. -/
theorem C3_counterexample_negative_tokens_computed :
    calculate_cost initState "vertex-gemini-pro" (-1000) 0
      = some (-0.000125, 0, -0.000125, false) := by
  simp [calculate_cost, resolved_prices, dlookup, initState]

/-- C3 amended: calculate_cost performs no validation of its token counts;
for every input and output token counts, including negative ones, it
returns normally with the costs computed by the pricing formula. -/
theorem C3_no_negative_token_validation (input_tokens output_tokens : Int) :
    calculate_cost initState "vertex-gemini-pro" input_tokens output_tokens
      = some (((input_tokens : ℚ) / 1000) * 0.000125,
              ((output_tokens : ℚ) / 1000) * 0.000375,
              ((input_tokens : ℚ) / 1000) * 0.000125
                + ((output_tokens : ℚ) / 1000) * 0.000375,
              false) := by
  simp [calculate_cost, resolved_prices, dlookup, initState]

/-- A cost entry whose timestamp is exactly at the retention cutoff used
by the C4 counterexample. -/
def entry0 : CostEntry :=
  { timestamp := ⟨0, "2026-09-12", "2026-W37", "2026-09"⟩
    model := "vertex-gemini-pro", user_id := "alice"
    input_tokens := 100, output_tokens := 100
    input_cost := 0.0000125, output_cost := 0.0000375, total_cost := 0.00005
    request_id := "req-0" }

/-- A tracker retaining exactly entry0. -/
def trackerWithEntry0 : CostTracker := { initState with costs := [entry0] }

/-- C4 counterexample: with retention 30 days evaluated at an instant
exactly 30 days after the timestamp of entry0, the entry satisfies
timestamp greater than or equal to now minus the retention window, yet
cleanup_old_entries removes it. -/
theorem C4_counterexample_boundary_entry_removed :
    entry0.timestamp.t ≥ inst1.t - 30 * 86400
    ∧ entry0 ∈ trackerWithEntry0.costs
    ∧ entry0 ∉ (cleanup_old_entries trackerWithEntry0 30 inst1).costs := by
  refine ⟨by norm_num [entry0, inst1], by simp [trackerWithEntry0], ?_⟩
  simp [cleanup_old_entries, trackerWithEntry0, entry0, inst1]

/-- C4 amended: cleanup_old_entries keeps exactly the retained records
whose timestamp is strictly newer than now minus the retention window
(records at or before the cutoff are removed), returns no removed count
(the count is only logged), and leaves all five aggregate accumulators
unchanged. -/
theorem C4_cleanup_filters_and_preserves_aggregates (s : CostTracker)
    (retention_days : Int) (now : Instant) :
    (cleanup_old_entries s retention_days now).costs
      = s.costs.filter (fun e => decide (now.t - retention_days * 86400 < e.timestamp.t))
    ∧ (cleanup_old_entries s retention_days now).daily_costs = s.daily_costs
    ∧ (cleanup_old_entries s retention_days now).weekly_costs = s.weekly_costs
    ∧ (cleanup_old_entries s retention_days now).monthly_costs = s.monthly_costs
    ∧ (cleanup_old_entries s retention_days now).user_costs = s.user_costs
    ∧ (cleanup_old_entries s retention_days now).model_costs = s.model_costs :=
  ⟨rfl, rfl, rfl, rfl, rfl, rfl⟩

/-- Helper for C5: lowering the threshold fraction can only keep a decided
budget comparison true, provided the ceiling is non-negative. -/
theorem tier_mono {spent budget t1 t2 : ℚ} (ht : t1 ≤ t2) (hb : 0 ≤ budget)
    (h : decide (spent ≥ budget * t2) = true) : decide (spent ≥ budget * t1) = true := by
  simp only [decide_eq_true_eq, ge_iff_le] at h ⊢
  exact le_trans (mul_le_mul_of_nonneg_left ht hb) h

/-- C5: for every tracker whose threshold fractions are ordered warning at
most critical at most emergency and whose ceilings are non-negative, the
nine booleans of check_budget_limits are tier-monotone in each period:
emergency implies critical implies warning. -/
theorem C5_budget_status_tier_monotone (s : CostTracker) (now : Instant)
    (hwc : s.warning_threshold ≤ s.critical_threshold)
    (hce : s.critical_threshold ≤ s.emergency_threshold)
    (hdb : 0 ≤ s.daily_budget) (hwb : 0 ≤ s.weekly_budget) (hmb : 0 ≤ s.monthly_budget) :
    ((check_budget_limits s now).1.daily_emergency = true →
        (check_budget_limits s now).1.daily_critical = true)
    ∧ ((check_budget_limits s now).1.daily_critical = true →
        (check_budget_limits s now).1.daily_warning = true)
    ∧ ((check_budget_limits s now).1.weekly_emergency = true →
        (check_budget_limits s now).1.weekly_critical = true)
    ∧ ((check_budget_limits s now).1.weekly_critical = true →
        (check_budget_limits s now).1.weekly_warning = true)
    ∧ ((check_budget_limits s now).1.monthly_emergency = true →
        (check_budget_limits s now).1.monthly_critical = true)
    ∧ ((check_budget_limits s now).1.monthly_critical = true →
        (check_budget_limits s now).1.monthly_warning = true) := by
  refine ⟨fun h => ?_, fun h => ?_, fun h => ?_, fun h => ?_, fun h => ?_, fun h => ?_⟩ <;>
    simp only [check_budget_limits] at h ⊢ <;>
    first
      | exact tier_mono hce hdb h
      | exact tier_mono hwc hdb h
      | exact tier_mono hce hwb h
      | exact tier_mono hwc hwb h
      | exact tier_mono hce hmb h
      | exact tier_mono hwc hmb h

/-- Witness for C5 at the default-environment tracker and a concrete
instant. -/
theorem C5_budget_status_tier_monotone_witness :
    (initState.warning_threshold ≤ initState.critical_threshold
      ∧ initState.critical_threshold ≤ initState.emergency_threshold
      ∧ (0 : ℚ) ≤ initState.daily_budget
      ∧ (0 : ℚ) ≤ initState.weekly_budget
      ∧ (0 : ℚ) ≤ initState.monthly_budget)
    ∧ (((check_budget_limits initState inst1).1.daily_emergency = true →
          (check_budget_limits initState inst1).1.daily_critical = true)
       ∧ ((check_budget_limits initState inst1).1.daily_critical = true →
          (check_budget_limits initState inst1).1.daily_warning = true)
       ∧ ((check_budget_limits initState inst1).1.weekly_emergency = true →
          (check_budget_limits initState inst1).1.weekly_critical = true)
       ∧ ((check_budget_limits initState inst1).1.weekly_critical = true →
          (check_budget_limits initState inst1).1.weekly_warning = true)
       ∧ ((check_budget_limits initState inst1).1.monthly_emergency = true →
          (check_budget_limits initState inst1).1.monthly_critical = true)
       ∧ ((check_budget_limits initState inst1).1.monthly_critical = true →
          (check_budget_limits initState inst1).1.monthly_warning = true)) :=
  ⟨⟨by norm_num [initState], by norm_num [initState], by norm_num [initState],
    by norm_num [initState], by norm_num [initState]⟩,
   C5_budget_status_tier_monotone initState inst1 (by norm_num [initState])
     (by norm_num [initState]) (by norm_num [initState]) (by norm_num [initState])
     (by norm_num [initState])⟩

/-- C1: code bug. A call to add_cost_entry with the configured model
vertex-gemini-pro appends the record and updates the daily accumulator,
but then raises KeyError instead of returning the entry, and the
per-model accumulator is never updated: model_costs still holds only the
static pricing entries, because CostTracker.__init__ rebinds the
per-model aggregation attribute to the pricing dict.  The append and the
five aggregate updates therefore do not succeed together. -/
theorem C1_add_cost_entry_raises_after_partial_write :
    (add_cost_entry initState "vertex-gemini-pro" "alice" 1000 1000 "req-1" inst1).2
        = Except.error "KeyError"
    ∧ (add_cost_entry initState "vertex-gemini-pro" "alice" 1000 1000 "req-1" inst1).1.costs.length
        = 1
    ∧ dgetD (add_cost_entry initState "vertex-gemini-pro" "alice" 1000 1000 "req-1" inst1).1.daily_costs
        "2026-10-12" 0 = 0.0005
    ∧ (add_cost_entry initState "vertex-gemini-pro" "alice" 1000 1000 "req-1" inst1).1.model_costs
        = initState.model_costs := by
  refine ⟨?_, ?_, ?_, ?_⟩ <;>
    simp [add_cost_entry, calculate_cost, resolved_prices, dlookup, dgetD, dset, dincr,
      initState, inst1] <;> norm_num

/-- C2: code bug. For a model absent from the pricing configuration,
price resolution indeed applies the fixed fallback pair 0.001 and 0.002
per 1k tokens with the warning signal and calculate_cost returns
normally, but add_cost_entry then raises KeyError at the per-model
aggregation line (the pricing dict has no entry for the unknown model),
so recording does not complete and no CostRecord is returned. -/
theorem C2_unknown_model_fallback_but_record_raises :
    resolved_prices initState "my-model" = some (0.001, 0.002, true)
    ∧ calculate_cost initState "my-model" 1000 1000 = some (0.001, 0.002, 0.003, true)
    ∧ (add_cost_entry initState "my-model" "bob" 1000 1000 "req-2" inst1).2
        = Except.error "KeyError" := by
  refine ⟨?_, ?_, ?_⟩ <;>
    simp [add_cost_entry, calculate_cost, resolved_prices, dlookup, dgetD, dset, dincr,
      initState, inst1] <;> norm_num

/-- C6: when the manager is enabled and the budget status has the daily or
the monthly emergency flag set, pre_request_check denies the request and
the budget-limit violation is in the returned list, for every content and
every outcome of the content scans. -/
theorem C6_pre_request_check_blocks_on_emergency
    (m : GuardrailsManager) (content : List Char) (model user_id : String)
    (now : Instant) (piiHit secretHit toxicHit : Bool)
    (hen : m.enabled = true)
    (hem : ((check_budget_limits m.cost_tracker now).1.daily_emergency
            || (check_budget_limits m.cost_tracker now).1.monthly_emergency) = true) :
    (pre_request_check m content model user_id now piiHit secretHit toxicHit).1.1 = false
    ∧ Violation.budgetLimit
        ∈ (pre_request_check m content model user_id now piiHit secretHit toxicHit).1.2 := by
  constructor <;> simp [pre_request_check, hen, hem]

/-- The budget-blocking scenario of the spec: daily ceiling 10, emergency
fraction 0.95 (the default), and 9.60 of accumulated daily spend. -/
def tracker960 : CostTracker :=
  { initState with daily_budget := 10, daily_costs := [("2026-10-12", 9.6)] }

/-- An enabled manager over tracker960. -/
def manager960 : GuardrailsManager :=
  { cost_tracker := tracker960, content_guardrails := initGuardrails, enabled := true }

/-- Witness for C6: in the concrete 9.60-of-10 scenario the daily
emergency flag is set and the request is denied with the budget
violation, on an input content with no violations of its own. -/
theorem C6_pre_request_check_blocks_on_emergency_witness :
    (manager960.enabled = true
      ∧ ((check_budget_limits manager960.cost_tracker inst1).1.daily_emergency
         || (check_budget_limits manager960.cost_tracker inst1).1.monthly_emergency) = true)
    ∧ (pre_request_check manager960 [] "vertex-gemini-pro" "carol" inst1
        false false false).1.1 = false
    ∧ Violation.budgetLimit
        ∈ (pre_request_check manager960 [] "vertex-gemini-pro" "carol" inst1
            false false false).1.2 :=
  ⟨⟨rfl, by simp [check_budget_limits, manager960, tracker960, initState, inst1,
      dgetD, dlookup]; norm_num⟩,
   C6_pre_request_check_blocks_on_emergency manager960 [] "vertex-gemini-pro" "carol" inst1
     false false false rfl
     (by simp [check_budget_limits, manager960, tracker960, initState, inst1,
       dgetD, dlookup]; norm_num)⟩

/-- C7: pre_request_check never mutates the cost tracker: the state it
threads out is exactly the state passed in, whatever the content, the
configuration and the scan outcomes; in particular no absent period key
is materialized, since the budget reads go through dict.get. -/
theorem C7_pre_request_check_leaves_state_unchanged (m : GuardrailsManager)
    (content : List Char) (model user_id : String) (now : Instant)
    (piiHit secretHit toxicHit : Bool) :
    (pre_request_check m content model user_id now piiHit secretHit toxicHit).2
      = m.cost_tracker := by
  by_cases h : m.enabled = false <;> simp [pre_request_check, check_budget_limits, h]

/-- Helper for C10: on a character list with no whitespace, the split
helper yields at most one word whatever word is being accumulated. -/
theorem pySplitAux_length_le_one (l : List Char) :
    ∀ acc, (∀ c ∈ l, c.isWhitespace = false) → (pySplitAux l acc).length ≤ 1 := by
  induction l with
  | nil =>
    intro acc _
    unfold pySplitAux
    split <;> simp
  | cons c rest ih =>
    intro acc h
    have hc : c.isWhitespace = false := h c (List.mem_cons_self c rest)
    unfold pySplitAux
    simp only [hc]
    exact ih _ (fun d hd => h d (List.mem_cons_of_mem c hd))

/-- On content with no whitespace, Python str.split() yields at most one
word. -/
theorem pySplit_length_le_one (content : List Char)
    (h : ∀ c ∈ content, c.isWhitespace = false) : (pySplit content).length ≤ 1 :=
  pySplitAux_length_le_one content [] h

/-- C10: for every content containing no whitespace character, however
long, validate_input never emits the input-token-limit violation, because
the token estimate is the word count times 1.3, at most 1.3 here; only
the byte-size ceiling can reject such an input on length.  The ceiling
hypothesis holds for every max_input_tokens of at least 2, in particular
the default 8192. -/
theorem C10_single_word_never_token_limited (g : ContentGuardrails)
    (content : List Char) (piiHit secretHit toxicHit : Bool)
    (hws : ∀ c ∈ content, c.isWhitespace = false)
    (hmax : (1.3 : ℚ) ≤ (g.max_input_tokens : ℚ)) :
    Violation.tokenLimit ∉ (validate_input g content piiHit secretHit toxicHit).2 := by
  have hwc : ((pySplit content).length : ℚ) ≤ 1 := by
    exact_mod_cast pySplit_length_le_one content hws
  have hest : ¬ ((g.max_input_tokens : ℚ) < ((pySplit content).length : ℚ) * 1.3) := by
    refine not_lt.mpr ?_
    calc ((pySplit content).length : ℚ) * 1.3 ≤ 1 * 1.3 :=
          mul_le_mul_of_nonneg_right hwc (by norm_num)
      _ = 1.3 := one_mul _
      _ ≤ (g.max_input_tokens : ℚ) := hmax
  simp only [validate_input]
  split_ifs <;> simp_all [List.mem_append]

/-- Witness for C10 at the default guardrails configuration and the
two-character single word ab. -/
theorem C10_single_word_never_token_limited_witness :
    (∀ c ∈ (['a', 'b'] : List Char), c.isWhitespace = false)
    ∧ (1.3 : ℚ) ≤ (initGuardrails.max_input_tokens : ℚ)
    ∧ Violation.tokenLimit
        ∉ (validate_input initGuardrails ['a', 'b'] false false false).2 :=
  ⟨by decide, by norm_num [initGuardrails],
   C10_single_word_never_token_limited initGuardrails ['a', 'b'] false false false
     (by decide) (by norm_num [initGuardrails])⟩
